import Mathlib

/-!
Verification of the Risk Presentation Layer of the medical-data-analyzer
application (src/Desktop/project_summer/app.py).

The app is a single Streamlit page.  The behavioural content embedded here:

* the risk-tier classifier (app.py lines 130-138): an if/elif/else on the
  fixed thresholds 0.7 and 0.4 over the predictor's risk score;
* the result formatter (lines 141-149): percentages rendered with the
  Python format spec `.1%` (value times 100, one decimal digit,
  round half to even, a percent sign);
* the recommendation list (lines 153-155): enumerate(recs, 1) printed as
  "i. rec";
* the predictor invocation wrapper (lines 119-159): one try/except around
  a single call, an error notice plus an install hint on failure;
* the document-analysis placeholder (lines 173-187): a constant summary
  independent of the uploaded file;
* the sidebar sample-data button (lines 208-213): try/except around the
  sample generator, a generic notice on failure;
* the patient-record construction (lines 107-117): family_history encoded
  1 for the "Yes" selection and 0 otherwise.

Scores are embedded as rationals; the exact rational values used in the
spec's examples are representable and agree with the Python floats at the
one-decimal precision of the display format.
-/

/-- Rounding to the nearest integer, ties to even: the rounding mode used by
Python's fixed-precision string formatting. -/
def roundHalfEven (q : ℚ) : ℤ :=
  let f : ℤ := ⌊q⌋
  let r : ℚ := q - f
  if r < 1/2 then f
  else if 1/2 < r then f + 1
  else if f % 2 = 0 then f else f + 1

/-- Embedding of the Python format spec `.1%` applied to a value `q`:
multiply by 100, keep one decimal digit (round half to even), append a
percent sign.  Source: the f-string fields at app.py lines 146-147. -/
def formatPercent (q : ℚ) : String :=
  let t : ℤ := roundHalfEven (q * 1000)
  if t < 0 then
    "-" ++ toString ((-t).toNat / 10) ++ "." ++ toString ((-t).toNat % 10) ++ "%"
  else
    toString (t.toNat / 10) ++ "." ++ toString (t.toNat % 10) ++ "%"

/-- The three risk tiers derived from the risk score. -/
inductive RiskTier
  | high
  | medium
  | low
deriving DecidableEq

/-- Embedding of the if/elif/else at app.py lines 130-138: the tier for a
risk score. -/
def riskTier (risk_score : ℚ) : RiskTier :=
  if risk_score ≥ 7/10 then .high
  else if risk_score ≥ 4/10 then .medium
  else .low

/-- Display label attached to each tier in the same branches (app.py lines
132, 135, 138). -/
def tierLabel : RiskTier → String
  | .high => "High Risk"
  | .medium => "Medium Risk"
  | .low => "Low Risk"

/-- The risk-level string the page displays for a score. -/
def riskLevel (risk_score : ℚ) : String :=
  tierLabel (riskTier risk_score)

/-- Embedding of app.py lines 154-155: for i, rec in enumerate(recs, 1)
the page writes the line "i. rec". -/
def recommendationLines (recs : List String) : List String :=
  recs.enum.map (fun p => toString (p.1 + 1) ++ ". " ++ p.2)

/-- The dictionary returned by predict_diabetes, as consumed at app.py
lines 125-127 and 153: prediction, confidence, risk_score, and an optional
recommendations key (read with .get and default []). -/
structure PredictionResult where
  prediction : String
  confidence : ℚ
  risk_score : ℚ
  recommendations : Option (List String)

/-- One item written to the page by the prediction handler: the styled
result block (app.py lines 141-149), the recommendations subheader (line
152), a numbered recommendation line (line 155), the error notice (line
158), or the install hint (line 159). -/
inductive DisplayItem
  | resultBundle (diagnosis riskLabel confidencePct riskPct : String)
  | recHeader
  | recLine (line : String)
  | errorNotice (msg : String)
  | infoNotice (msg : String)
deriving DecidableEq

/-- Bundle content: items belonging to a successful prediction display. -/
def DisplayItem.isBundleContent : DisplayItem → Bool
  | .resultBundle _ _ _ _ => true
  | .recHeader => true
  | .recLine _ => true
  | .errorNotice _ => false
  | .infoNotice _ => false

/-- Error content: items belonging to the failure path. -/
def DisplayItem.isErrorContent : DisplayItem → Bool
  | .errorNotice _ => true
  | .infoNotice _ => true
  | _ => false

/-- Embedding of the try/except body at app.py lines 121-159: on a
successful predictor response the page emits the full result block, the
subheader and the numbered recommendation lines; on any exception it emits
the error notice built from the exception text and the install hint. -/
def renderPrediction (res : Except String PredictionResult) : List DisplayItem :=
  match res with
  | .error e =>
      [.errorNotice ("Error making prediction: " ++ e),
       .infoNotice "Make sure all dependencies are installed: pip install -r requirements.txt"]
  | .ok r =>
      .resultBundle r.prediction (riskLevel r.risk_score)
          (formatPercent r.confidence) (formatPercent r.risk_score)
        :: .recHeader
        :: (recommendationLines (r.recommendations.getD [])).map .recLine

/-- One button press (app.py line 119): the handler makes exactly one call
to the predictor (call number 0 of the response oracle) and renders its
outcome; the second component counts the predictor invocations performed,
which the straight-line source fixes at one. -/
def runPrediction (responses : ℕ → Except String PredictionResult) :
    List DisplayItem × ℕ :=
  (renderPrediction (responses 0), 1)

/-- The fixed analysis summary of the document-analysis placeholder
(app.py lines 179-187). -/
structure AnalysisSummary where
  documentType : String
  keyFindings : String
  criticalAlerts : String
  recommendation : String
deriving DecidableEq

/-- Embedding of render_document_analyzer's button handler (app.py lines
176-187): the summary is a hard-coded block, the file's name and content
are never read. -/
def analyzeDocument (fileName : String) (fileContent : List ℕ) :
    AnalysisSummary :=
  { documentType := "Medical Report"
    keyFindings := "Normal glucose levels, slightly elevated blood pressure"
    criticalAlerts := "None detected"
    recommendation := "Regular monitoring suggested" }

/-- The patient dictionary built at app.py lines 107-117. -/
structure PatientRecord where
  age : ℤ
  bmi : ℚ
  glucose_level : ℤ
  blood_pressure : ℤ
  insulin_level : ℤ
  family_history : ℤ
  physical_activity : ℤ
  diet_score : ℤ
  stress_level : ℤ
deriving DecidableEq

/-- Embedding of the patient_data construction (app.py lines 107-117):
every widget value is copied through, family_history becomes 1 exactly
when the selectbox string equals "Yes" and 0 otherwise. -/
def mkPatientData (age : ℤ) (bmi : ℚ) (glucose bp insulin : ℤ)
    (family_history_sel : String) (activity diet stress : ℤ) : PatientRecord :=
  { age := age
    bmi := bmi
    glucose_level := glucose
    blood_pressure := bp
    insulin_level := insulin
    family_history := if family_history_sel = "Yes" then 1 else 0
    physical_activity := activity
    diet_score := diet
    stress_level := stress }

/-- What the sidebar shows after the sample-data button (app.py lines
208-213). -/
inductive SampleOutput
  | shown (record : PatientRecord)
  | notice (msg : String)
deriving DecidableEq

/-- Embedding of the sample-data try/except (app.py lines 208-213): on
success the record is shown as JSON, on any failure the bare except shows
the fixed notice. -/
def renderSampleData (sample : Except String PatientRecord) : SampleOutput :=
  match sample with
  | .ok d => .shown d
  | .error _ => .notice "Sample data not available"

/-! ### Helper lemmas -/

/-- The classifier labels any score below 0.4 as Low Risk. -/
theorem riskLevel_low (r : ℚ) (h : r < 4/10) : riskLevel r = "Low Risk" := by
  unfold riskLevel riskTier
  rw [if_neg (by push_neg; linarith), if_neg (by push_neg; linarith)]
  rfl

/-- The classifier labels any score in [0.4, 0.7) as Medium Risk. -/
theorem riskLevel_medium (r : ℚ) (h1 : 4/10 ≤ r) (h2 : r < 7/10) :
    riskLevel r = "Medium Risk" := by
  unfold riskLevel riskTier
  rw [if_neg (by push_neg; linarith), if_pos h1]
  rfl

/-- The classifier labels any score at or above 0.7 as High Risk. -/
theorem riskLevel_high (r : ℚ) (h : 7/10 ≤ r) : riskLevel r = "High Risk" := by
  unfold riskLevel riskTier
  rw [if_pos h]
  rfl

/-- Rounding an integer changes nothing. -/
theorem roundHalfEven_intCast (n : ℤ) : roundHalfEven (n : ℚ) = n := by
  unfold roundHalfEven
  rw [Int.floor_intCast]
  norm_num

/-- Rounding a nonnegative rational gives a nonnegative integer. -/
theorem roundHalfEven_nonneg (q : ℚ) (h : 0 ≤ q) : 0 ≤ roundHalfEven q := by
  unfold roundHalfEven
  have hf : 0 ≤ ⌊q⌋ := Int.floor_nonneg.mpr h
  dsimp only
  split_ifs <;> omega

/-- On nonnegative input the formatter takes the sign-free branch. -/
theorem formatPercent_of_nonneg (q : ℚ) (h : 0 ≤ q) :
    formatPercent q =
      toString ((roundHalfEven (q * 1000)).toNat / 10) ++ "." ++
        toString ((roundHalfEven (q * 1000)).toNat % 10) ++ "%" := by
  unfold formatPercent
  rw [if_neg (not_lt.mpr (roundHalfEven_nonneg _ (by positivity)))]

/-- A single decimal digit prints as one character. -/
theorem toString_digit_length (d : ℕ) (h : d < 10) : (toString d).length = 1 := by
  interval_cases d <;> rfl

/-! ### Claims -/

/-- C1: the tier classifier realises the fixed thresholds: scores in
[0, 0.4) are Low Risk, scores in [0.4, 0.7) are Medium Risk, scores in
[0.7, 1] are High Risk, and the boundary values 0.4 and 0.7 classify as
Medium and High respectively. -/
theorem risk_tier_thresholds (r : ℚ) :
    (0 ≤ r → r < 4/10 → riskLevel r = "Low Risk") ∧
    (4/10 ≤ r → r < 7/10 → riskLevel r = "Medium Risk") ∧
    (7/10 ≤ r → r ≤ 1 → riskLevel r = "High Risk") ∧
    riskLevel (4/10) = "Medium Risk" ∧ riskLevel (7/10) = "High Risk" := by
  refine ⟨fun _ h => riskLevel_low r h,
    fun h1 h2 => riskLevel_medium r h1 h2,
    fun h _ => riskLevel_high r h,
    riskLevel_medium _ le_rfl (by norm_num),
    riskLevel_high _ le_rfl⟩

/-- C1 witness: the three bands and both boundaries at concrete scores. -/
theorem risk_tier_thresholds_witness :
    riskLevel (1/10) = "Low Risk" ∧ riskLevel (1/2) = "Medium Risk" ∧
      riskLevel (9/10) = "High Risk" :=
  ⟨(risk_tier_thresholds (1/10)).1 (by norm_num) (by norm_num),
   (risk_tier_thresholds (1/2)).2.1 (by norm_num) (by norm_num),
   (risk_tier_thresholds (9/10)).2.2.1 (by norm_num) (by norm_num)⟩

/-- C2: recommendation lines are numbered from 1 and preserve the input
order with no sorting and no de-duplication: the list of lines has the
same length as the input, the i-th line is the string "i+1. s" where s is
the i-th input, and the example input A, B yields the lines 1. A and 2. B. -/
theorem recommendation_numbering (recs : List String) :
    (recommendationLines recs).length = recs.length ∧
    (∀ i : ℕ, (recommendationLines recs)[i]? =
      (recs[i]?).map (fun s => toString (i + 1) ++ ". " ++ s)) ∧
    recommendationLines ["A", "B"] = ["1. A", "2. B"] := by
  refine ⟨by simp [recommendationLines], fun i => ?_, by decide⟩
  simp only [recommendationLines, List.getElem?_map, List.getElem?_enum]
  cases recs[i]? <;> rfl

/-- C3: for every nonnegative value the formatter produces an integer
part, a dot, exactly one decimal digit and a percent sign; the examples
0.841, 1.0 and 0.0 render as 84.1 percent, 100.0 percent and 0.0 percent. -/
theorem percent_format_one_decimal :
    (∀ q : ℚ, 0 ≤ q →
      formatPercent q =
        toString ((roundHalfEven (q * 1000)).toNat / 10) ++ "." ++
          toString ((roundHalfEven (q * 1000)).toNat % 10) ++ "%" ∧
      (roundHalfEven (q * 1000)).toNat % 10 < 10 ∧
      (toString ((roundHalfEven (q * 1000)).toNat % 10)).length = 1) ∧
    formatPercent (841/1000) = "84.1%" ∧
    formatPercent 1 = "100.0%" ∧ formatPercent 0 = "0.0%" := by
  have key : ∀ (q : ℚ) (n : ℤ), 0 ≤ q → q * 1000 = (n : ℚ) →
      formatPercent q =
        toString (n.toNat / 10) ++ "." ++ toString (n.toNat % 10) ++ "%" := by
    intro q n hq hn
    rw [formatPercent_of_nonneg q hq, hn, roundHalfEven_intCast]
  refine ⟨fun q hq => ⟨formatPercent_of_nonneg q hq,
      Nat.mod_lt _ (by norm_num),
      toString_digit_length _ (Nat.mod_lt _ (by norm_num))⟩, ?_, ?_, ?_⟩
  · rw [key (841/1000) 841 (by norm_num) (by norm_num)]
    rfl
  · rw [key 1 1000 (by norm_num) (by norm_num)]
    rfl
  · rw [key 0 0 (by norm_num) (by norm_num)]
    rfl

/-- C3 witness: the universally quantified part applied at 0.841. -/
theorem percent_format_one_decimal_witness :
    (0 : ℚ) ≤ 841/1000 ∧
    (formatPercent (841/1000 : ℚ) =
        toString ((roundHalfEven ((841/1000 : ℚ) * 1000)).toNat / 10) ++ "." ++
          toString ((roundHalfEven ((841/1000 : ℚ) * 1000)).toNat % 10) ++ "%" ∧
      (roundHalfEven ((841/1000 : ℚ) * 1000)).toNat % 10 < 10 ∧
      (toString ((roundHalfEven ((841/1000 : ℚ) * 1000)).toNat % 10)).length = 1) :=
  ⟨by norm_num, percent_format_one_decimal.1 (841/1000) (by norm_num)⟩

/-- C4: when the predictor call fails the handler performs exactly one
attempt, emits exactly the generic error notice built from the exception
text followed by the dependency-installation hint, and emits no result
bundle. -/
theorem predictor_failure_single_attempt
    (responses : ℕ → Except String PredictionResult) (e : String)
    (h : responses 0 = .error e) :
    (runPrediction responses).2 = 1 ∧
    (runPrediction responses).1 =
      [.errorNotice ("Error making prediction: " ++ e),
       .infoNotice "Make sure all dependencies are installed: pip install -r requirements.txt"] ∧
    ∀ d t c r, DisplayItem.resultBundle d t c r ∉ (runPrediction responses).1 := by
  refine ⟨rfl, by simp [runPrediction, renderPrediction, h], ?_⟩
  intro d t c r
  simp [runPrediction, renderPrediction, h]

/-- C4 witness: a concrete always-failing predictor. -/
theorem predictor_failure_single_attempt_witness :
    (fun _ : ℕ => (Except.error "boom" : Except String PredictionResult)) 0 =
        Except.error "boom" ∧
    ((runPrediction fun _ => Except.error "boom").2 = 1 ∧
      (runPrediction fun _ => Except.error "boom").1 =
        [.errorNotice ("Error making prediction: " ++ "boom"),
         .infoNotice "Make sure all dependencies are installed: pip install -r requirements.txt"] ∧
      ∀ d t c r, DisplayItem.resultBundle d t c r ∉
        (runPrediction fun _ => Except.error "boom").1) :=
  ⟨rfl, predictor_failure_single_attempt (fun _ => Except.error "boom") "boom" rfl⟩

/-- C5: no interaction mixes bundle content with error content: the
emitted items are either exactly the complete display bundle (result
block, subheader, all numbered recommendation lines) or exactly the error
notice and hint, and never both kinds at once. -/
theorem no_partial_results (res : Except String PredictionResult) :
    ¬((renderPrediction res).any DisplayItem.isErrorContent = true ∧
      (renderPrediction res).any DisplayItem.isBundleContent = true) ∧
    ((∃ e, res = .error e ∧ renderPrediction res =
        [.errorNotice ("Error making prediction: " ++ e),
         .infoNotice "Make sure all dependencies are installed: pip install -r requirements.txt"]) ∨
     (∃ r, res = .ok r ∧ renderPrediction res =
        .resultBundle r.prediction (riskLevel r.risk_score)
            (formatPercent r.confidence) (formatPercent r.risk_score)
          :: .recHeader
          :: (recommendationLines (r.recommendations.getD [])).map .recLine)) := by
  cases res with
  | error e =>
      refine ⟨?_, Or.inl ⟨e, rfl, rfl⟩⟩
      simp [renderPrediction, DisplayItem.isBundleContent]
  | ok r =>
      refine ⟨?_, Or.inr ⟨r, rfl, rfl⟩⟩
      rintro ⟨h1, -⟩
      simp [renderPrediction, List.any_map, Function.comp,
        DisplayItem.isErrorContent] at h1

/-- C6 counterexample: the classifier does not reject out-of-range
scores: a negative score classifies as Low Risk and a score above 1
classifies as High Risk. -/
theorem tier_rejects_out_of_range_refuted :
    riskLevel (-1) = "Low Risk" ∧ riskLevel 2 = "High Risk" :=
  ⟨riskLevel_low _ (by norm_num), riskLevel_high _ (by norm_num)⟩

/-- C6 amended: the tier classifier is a pure total function that never
rejects: every score below 0.4, negatives included, classifies Low Risk,
every score at or above 0.7, values above 1 included, classifies High
Risk, and every score receives one of the three labels. -/
theorem tier_total_no_rejection :
    (∀ r : ℚ, r < 4/10 → riskLevel r = "Low Risk") ∧
    (∀ r : ℚ, 7/10 ≤ r → riskLevel r = "High Risk") ∧
    (∀ r : ℚ, riskLevel r = "Low Risk" ∨ riskLevel r = "Medium Risk" ∨
      riskLevel r = "High Risk") := by
  refine ⟨fun r h => riskLevel_low r h, fun r h => riskLevel_high r h, fun r => ?_⟩
  rcases lt_or_le r (4/10) with h | h1
  · exact Or.inl (riskLevel_low r h)
  · rcases lt_or_le r (7/10) with h2 | h2
    · exact Or.inr (Or.inl (riskLevel_medium r h1 h2))
    · exact Or.inr (Or.inr (riskLevel_high r h2))

/-- C6 amended witness: out-of-range scores classified, not rejected. -/
theorem tier_total_no_rejection_witness :
    (-1 : ℚ) < 4/10 ∧ riskLevel (-1) = "Low Risk" ∧
    (7/10 : ℚ) ≤ 2 ∧ riskLevel 2 = "High Risk" :=
  ⟨by norm_num, tier_total_no_rejection.1 (-1) (by norm_num),
   by norm_num, tier_total_no_rejection.2.1 2 (by norm_num)⟩

/-- C7: the document-analysis placeholder yields the identical fixed
summary for any two uploaded files, whatever their names and contents. -/
theorem document_analysis_constant (n1 : String) (c1 : List ℕ)
    (n2 : String) (c2 : List ℕ) :
    analyzeDocument n1 c1 = analyzeDocument n2 c2 := rfl

/-- C8: when the sample generator fails, for any exception, the sidebar
shows only the fixed generic notice and no sample record. -/
theorem sample_failure_generic_notice (e : String) :
    renderSampleData (.error e) = .notice "Sample data not available" ∧
    ∀ r, renderSampleData (.error e) ≠ .shown r := by
  refine ⟨rfl, fun r h => ?_⟩
  simp [renderSampleData] at h

/-- C9: a prediction result without the recommendations key still yields
the full bundle, with zero recommendation lines and no error notice. -/
theorem missing_recommendations_default_empty (p : String) (c r : ℚ) :
    renderPrediction (.ok ⟨p, c, r, none⟩) =
      [.resultBundle p (riskLevel r) (formatPercent c) (formatPercent r),
       .recHeader] ∧
    (∀ l, DisplayItem.recLine l ∉ renderPrediction (.ok ⟨p, c, r, none⟩)) ∧
    (∀ m, DisplayItem.errorNotice m ∉ renderPrediction (.ok ⟨p, c, r, none⟩)) := by
  refine ⟨by simp [renderPrediction, recommendationLines], fun l => ?_, fun m => ?_⟩ <;>
    simp [renderPrediction, recommendationLines]

/-- C10: the record handed to the predictor carries family_history 1
exactly when the selection string is "Yes" and 0 otherwise, so the field
is always 0 or 1. -/
theorem family_history_binary (age : ℤ) (bmi : ℚ) (glucose bp insulin : ℤ)
    (sel : String) (activity diet stress : ℤ) :
    ((mkPatientData age bmi glucose bp insulin sel activity diet stress).family_history
        = if sel = "Yes" then 1 else 0) ∧
    ((mkPatientData age bmi glucose bp insulin sel activity diet stress).family_history = 0 ∨
     (mkPatientData age bmi glucose bp insulin sel activity diet stress).family_history = 1) := by
  refine ⟨rfl, ?_⟩
  unfold mkPatientData
  split_ifs <;> simp
